import Mathlib

/-!
Verification of the ChartList navigation / batch-orchestration core of the
trading-chart-automation repository.  The definitions below are a shallow
embedding of the Python sources:

* `src/src/utils/excel_reader.py`      — `ChartListConfigReader`
* `src/src/browser/stockcharts_controller.py` — `StockChartsController`
* `src/src/browser/browser_session_manager.py` — `BrowserSessionManager`,
  `WindowPositioner`

Browser-facing effects (element lookups, clicks, page navigations) are
modelled by an explicit environment (`Env`) describing what the live page
would answer, together with an event trace recording the UI interactions
performed.
-/

namespace TradingCharts

/-! ## Spreadsheet cells (pandas values) -/

/-- A non-missing spreadsheet cell value: either an integer cell or a text
cell.  A missing cell (pandas `NaN`, i.e. `pd.notna` is false) is `none` at
the `Cell` level. -/
inductive CellV where
  | int (n : Int)
  | str (s : String)
deriving DecidableEq, Repr

/-- A spreadsheet cell; `none` models pandas `NaN` (blank cell). -/
abbrev Cell := Option CellV

instance {ε α : Type} [DecidableEq ε] [DecidableEq α] : DecidableEq (Except ε α) :=
  fun a b =>
    match a, b with
    | .error e, .error f =>
      if h : e = f then isTrue (by rw [h])
      else isFalse (fun hc => h (by cases hc; rfl))
    | .error _, .ok _ => isFalse (fun hc => Except.noConfusion hc)
    | .ok _, .error _ => isFalse (fun hc => Except.noConfusion hc)
    | .ok x, .ok y =>
      if h : x = y then isTrue (by rw [h])
      else isFalse (fun hc => h (by cases hc; rfl))

/-- Character-list prefix test, used to build the substring test below. -/
def isPrefixChars : List Char → List Char → Bool
  | [], _ => true
  | _ :: _, [] => false
  | a :: as, b :: bs => a == b && isPrefixChars as bs

/-- Does the character list contain `pat` as a contiguous run? -/
def containsChars (pat : List Char) : List Char → Bool
  | [] => pat.isEmpty
  | c :: cs => isPrefixChars pat (c :: cs) || containsChars pat cs

/-- Python's `pat in s` substring test on strings. -/
def strContains (s pat : String) : Bool :=
  containsChars pat.data s.data

/-- ASCII lower-casing of one character (Python `str.lower()` on the
ASCII strings this program handles). -/
def charLower (c : Char) : Char :=
  if 'A' ≤ c ∧ c ≤ 'Z' then Char.ofNat (c.toNat + 32) else c

/-- Python `s.lower()`. -/
def strLower (s : String) : String :=
  ⟨s.data.map charLower⟩

/-- Python `s.strip()`: drop leading and trailing whitespace. -/
def strTrim (s : String) : String :=
  ⟨((s.data.dropWhile Char.isWhitespace).reverse.dropWhile Char.isWhitespace).reverse⟩

/-- Python `s.replace(' ', '_')`. -/
def replaceSpaces (s : String) : String :=
  ⟨s.data.map (fun c => if c = ' ' then '_' else c)⟩

/-- Parse a run of decimal digits; `none` when empty or a non-digit occurs. -/
def digitsToNat? (cs : List Char) : Option Nat :=
  match cs with
  | [] => none
  | _ =>
    cs.foldl
      (fun acc c =>
        match acc with
        | none => none
        | some n => if c.isDigit then some (n * 10 + (c.toNat - 48)) else none)
      (some 0)

/-- Python `int(s)` on a string: optional surrounding whitespace, optional
sign, then decimal digits; raises (here: `none`) on anything else. -/
def parseIntStr (s : String) : Option Int :=
  match (strTrim s).data with
  | '-' :: rest => (digitsToNat? rest).map (fun n => -(n : Int))
  | '+' :: rest => (digitsToNat? rest).map (fun n => (n : Int))
  | cs => (digitsToNat? cs).map (fun n => (n : Int))

/-- Python `int(x)` on a cell value. -/
def pyInt? : CellV → Option Int
  | .int n => some n
  | .str s => parseIntStr s

/-- Python `str(x)` on a cell value. -/
def pyStr : CellV → String
  | .int n => toString n
  | .str s => s

/-! ## `ChartListConfigReader` (src/src/utils/excel_reader.py) -/

/-- Column-name normalization of `load_chart_configs`
(excel_reader.py lines 59-75): lowercase the stripped header and map it to
a canonical column name by substring tests, in the source's order. -/
def normalizeColumn (col : String) : Option String :=
  let c := strLower (strTrim col)
  if strContains c "chartlist" || strContains c "chart list" then some "ChartList"
  else if strContains c "chartname" || strContains c "chart name" then some "ChartName"
  else if strContains c "ticker" || strContains c "symbol" then some "ChartName"
  else if strContains c "tab" && strContains c "order" then some "TabOrder"
  else if strContains c "timeframe" || strContains c "box" then some "TimeframeBox"
  else if strContains c "note" || strContains c "comment" then some "Notes"
  else none

/-- One data row of the configuration table after column-name
normalization: the cells of the `ChartList`, `ChartName`, `TabOrder`,
`TimeframeBox` and `Notes` columns (a column absent from the file behaves
as an all-`none` column, matching `pd.notna` / `'X' in row` checks). -/
structure RawRow where
  chartList : Cell
  chartName : Cell
  tabOrder : Cell
  timeframeBox : Cell
  notes : Cell
deriving DecidableEq, Repr

/-- The configuration record built per row by `load_chart_configs`
(excel_reader.py lines 92-98). -/
structure ChartConfig where
  chartlist : String
  chart_name : String
  tab_order : Int
  timeframe_box : Option Int
  notes : String
deriving DecidableEq, Repr

/-- Per-row conversion of `load_chart_configs` (excel_reader.py lines
92-98).  `int(row['TabOrder'])` on a present but non-integer cell raises
`ValueError`, which propagates out of the loader. -/
def rowConfig (r : RawRow) : Except String ChartConfig := do
  let tab_order ←
    match r.tabOrder with
    | none => pure (999 : Int)
    | some v =>
      match pyInt? v with
      | some n => pure n
      | none => throw "invalid literal for int()"
  let timeframe_box ←
    match r.timeframeBox with
    | none => pure (none : Option Int)
    | some v =>
      match pyInt? v with
      | some n => pure (some n)
      | none => throw "invalid literal for int()"
  pure
    { chartlist := strTrim (pyStr (r.chartList.getD (.str "")))
      chart_name := strTrim (pyStr (r.chartName.getD (.str "")))
      tab_order := tab_order
      timeframe_box := timeframe_box
      notes := match r.notes with | none => "" | some v => pyStr v }

/-- A row survives `df.dropna(subset=['ChartList', 'ChartName'])`. -/
def rowKept (r : RawRow) : Bool :=
  r.chartList.isSome && r.chartName.isSome

/-- Ordering used by `configs.sort(key=lambda x: x['tab_order'])`. -/
def tabOrderLE (a b : ChartConfig) : Prop :=
  a.tab_order ≤ b.tab_order

instance : DecidableRel tabOrderLE := fun a b => by
  unfold tabOrderLE; infer_instance

instance : IsTotal ChartConfig tabOrderLE :=
  ⟨fun a b => Int.le_total a.tab_order b.tab_order⟩

instance : IsTrans ChartConfig tabOrderLE :=
  ⟨fun _ _ _ h h' => le_trans h h'⟩

/-- The `for _, row in df.iterrows()` loop building `configs`
(excel_reader.py lines 90-99): convert the rows in order; a raising
conversion aborts the whole load. -/
def mapExcept {α β : Type} (f : α → Except String β) :
    List α → Except String (List β)
  | [] => .ok []
  | a :: l => do
    let b ← f a
    let bs ← mapExcept f l
    pure (b :: bs)

/-- Shallow embedding of `ChartListConfigReader.load_chart_configs`
(excel_reader.py lines 37-116): the per-row processing after column-name
normalization, on the rows of the renamed table.  Drops rows with a
missing `ChartList` or `ChartName`, raises if nothing remains, converts
each row (a bad `TabOrder`/`TimeframeBox` integer raises), and sorts by
`tab_order` ascending (stable, like Python's `list.sort`). -/
def load_chart_configs (rows : List RawRow) : Except String (List ChartConfig) := do
  let kept := rows.filter rowKept
  if kept.isEmpty then
    throw "No valid chart configurations found in Excel file"
  let configs ← mapExcept rowConfig kept
  pure (List.insertionSort tabOrderLE configs)

/-- The table content written by `ChartListConfigReader.create_template`
(excel_reader.py lines 171-233): five sample rows under the headers
`ChartList`, `ChartName`, `TabOrder`, `TimeframeBox`, `Notes`.  The Excel
write/read round trip maps Python `None` to a blank cell (`none`). -/
def create_template : List RawRow :=
  [ ⟨some (.str "My Watchlist"), some (.str "AAPL"), some (.int 1), none,
      some (.str "Check resistance at 180")⟩,
    ⟨some (.str "My Watchlist"), some (.str "MSFT"), some (.int 2), none,
      some (.str "Earnings next week")⟩,
    ⟨some (.str "Tech Stocks"), some (.str "NVDA"), some (.int 3), some (.int 7),
      some (.str "60min chart - watch volume")⟩,
    ⟨some (.str "Energy Sector"), some (.str "XLE"), some (.int 4), none,
      some (.str "Oil sector ETF")⟩,
    ⟨some (.str "Small Caps"), some (.str "AEIS"), some (.int 5), some (.int 10),
      some (.str "5min chart - day trade setup")⟩ ]

/-! ## `StockChartsController` (src/src/browser/stockcharts_controller.py)

The browser page is modelled by an environment `Env` answering the
element-lookup probes the controller performs, and every UI interaction is
recorded as an `Event` in a trace. -/

/-- Navigation state tracked on the controller instance
(stockcharts_controller.py lines 44-47). -/
structure NavState where
  is_logged_in : Bool
  current_ticker : Option String
  current_chartlist : Option String
deriving DecidableEq, Repr

/-- A UI interaction performed against the live page. -/
inductive Event where
  | chartlistDropdownClick
  | chartlistEntryClick (name : String)
  | chartDropdownClick
  | chartEntryClick (name : String)
  | gotoChartUrl (ticker : String)
  | searchTicker (t : String)
  | chartstyleBoxClick (n : Int)
  | newTabGoto
deriving DecidableEq, Repr

/-- What the live page answers to the controller's probes: which elements
exist, whether direct navigations succeed, and what the login flow
observes after submitting the form. -/
structure Env where
  /-- `#chart-list-dropdown-menu-toggle-button` is present. -/
  chartlistButton : Bool
  /-- `text={name}` finds a ChartList entry (exact match). -/
  chartlistEntry : String → Bool
  /-- The `*:has-text(...)` fallback finds a ChartList entry. -/
  chartlistEntryFallback : String → Bool
  /-- `#charts-dropdown-menu-toggle-button` is present. -/
  chartButton : Bool
  /-- `text={name}` finds a chart entry (exact match). -/
  chartEntry : String → Bool
  /-- The `*:has-text(...)` fallback finds a chart entry. -/
  chartEntryFallback : String → Bool
  /-- `page.goto` of the direct chart URL for a ticker succeeds. -/
  gotoOk : String → Bool
  /-- Navigating to the login page succeeds. -/
  loginGotoOk : Bool
  /-- A username field is found among the login selectors. -/
  usernameFieldFound : Bool
  /-- A password field is found among the login selectors. -/
  passwordFieldFound : Bool
  /-- A login-success indicator is found after submitting (step 4). -/
  successIndicator : Bool
  /-- A login-error indicator is found after submitting. -/
  errorIndicator : Bool
  /-- `self.page.url` when the post-submit checks run. -/
  finalUrl : String
  /-- `context.new_page()` plus `goto` of the current URL succeeds for the
  request at the given 1-based batch index. -/
  newTabOk : Nat → Bool

/-- Shallow embedding of `StockChartsController.login`
(stockcharts_controller.py lines 767-975): skip when already logged in;
otherwise navigate to the login page, fill both credential fields (missing
field ⇒ `False`), submit, then verify: a success indicator sets
`is_logged_in` and returns `True`; an error indicator returns `False`; a
URL still containing `login`/`signin` returns `False`; otherwise success
is cautiously assumed (`is_logged_in` set, `True` returned). -/
def login (env : Env) (s : NavState) : NavState × Bool :=
  if s.is_logged_in then (s, true)
  else if !env.loginGotoOk then (s, false)
  else if !env.usernameFieldFound then (s, false)
  else if !env.passwordFieldFound then (s, false)
  else if env.successIndicator then ({ s with is_logged_in := true }, true)
  else if env.errorIndicator then (s, false)
  else if strContains (strLower env.finalUrl) "login" || strContains (strLower env.finalUrl) "signin" then
    (s, false)
  else
    ({ s with is_logged_in := true }, true)

/-- Shallow embedding of `StockChartsController.navigate_to_chart`
(stockcharts_controller.py lines 1194-1246): log in first when needed,
then `page.goto` the direct chart URL; on success set `current_ticker`. -/
def navigate_to_chart (env : Env) (s : NavState) (ticker : String) :
    NavState × List Event × Bool :=
  if s.is_logged_in then
    if env.gotoOk ticker then
      ({ s with current_ticker := some ticker }, [.gotoChartUrl ticker], true)
    else
      (s, [.gotoChartUrl ticker], false)
  else
    let r := login env s
    if !r.2 then (r.1, [], false)
    else if env.gotoOk ticker then
      ({ r.1 with current_ticker := some ticker }, [.gotoChartUrl ticker], true)
    else
      (r.1, [.gotoChartUrl ticker], false)

/-- Step 2 of `navigate_via_chartlist_dropdown` (stockcharts_controller.py
lines 1140-1186): open the Chart dropdown and click the entry matching
`chart` (exact then substring); on a miss fall back to
`navigate_to_chart`. -/
def chartSelectStep (env : Env) (s : NavState) (chart : String) :
    NavState × List Event × Bool :=
  if !env.chartButton then navigate_to_chart env s chart
  else if env.chartEntry chart then
    (s, [.chartDropdownClick, .chartEntryClick chart], true)
  else if env.chartEntryFallback chart then
    (s, [.chartDropdownClick, .chartEntryClick chart], true)
  else
    let r := navigate_to_chart env s chart
    (r.1, .chartDropdownClick :: r.2.1, r.2.2)

/-- Shallow embedding of
`StockChartsController.navigate_via_chartlist_dropdown`
(stockcharts_controller.py lines 1065-1192).  Cache check first: when
`current_chartlist` already equals the requested name the ChartList
dropdown is skipped entirely.  Otherwise the dropdown is opened and the
entry clicked (exact match then substring fallback), updating the cache
right after the click; a miss falls back to `navigate_to_chart`.  Then the
chart-selection step runs. -/
def navigate_via_chartlist_dropdown (env : Env) (s : NavState)
    (chartlist_name chart_name : String) : NavState × List Event × Bool :=
  if s.current_chartlist == some chartlist_name then
    chartSelectStep env s chart_name
  else if !env.chartlistButton then
    navigate_to_chart env s chart_name
  else if env.chartlistEntry chartlist_name then
    let r := chartSelectStep env { s with current_chartlist := some chartlist_name } chart_name
    (r.1, .chartlistDropdownClick :: .chartlistEntryClick chartlist_name :: r.2.1, r.2.2)
  else if env.chartlistEntryFallback chartlist_name then
    let r := chartSelectStep env { s with current_chartlist := some chartlist_name } chart_name
    (r.1, .chartlistDropdownClick :: .chartlistEntryClick chartlist_name :: r.2.1, r.2.2)
  else
    let r := navigate_to_chart env s chart_name
    (r.1, .chartlistDropdownClick :: r.2.1, r.2.2)

/-- The per-tab record stored in `opened_tabs`
(stockcharts_controller.py lines 1729-1737), minus the live page handle. -/
structure TabInfo where
  chartlist : String
  chart_name : String
  screenshot_path : String
  timeframe_box : Option Int
  notes : String
deriving DecidableEq, Repr

/-- The screenshot filename built at stockcharts_controller.py lines
1720-1723. -/
def screenshotName (tab_order : Int) (chartlist chart_name : String)
    (timeframe_box : Option Int) : String :=
  "tab" ++ toString tab_order ++ "_" ++ replaceSpaces chartlist ++ "_"
    ++ replaceSpaces chart_name
    ++ (match timeframe_box with
        | some n => if n ≠ 0 then "_box" ++ toString n else ""
        | none => "")
    ++ ".png"

/-- The body of one iteration of the `open_charts_from_excel` loop
(stockcharts_controller.py lines 1683-1744): navigate via the dropdowns;
on failure `continue` (no entry); otherwise create a new tab for every
request after the first (a raising `goto` is caught by the per-request
`except` and drops the entry), optionally click the ChartStyle box, take
the screenshot, and record the tab. -/
def processRequest (env : Env) (s : NavState) (idx : Nat) (c : ChartConfig) :
    NavState × List Event × Option TabInfo :=
  let r := navigate_via_chartlist_dropdown env s c.chartlist c.chart_name
  if !r.2.2 then (r.1, r.2.1, none)
  else if idx > 1 && !env.newTabOk idx then
    (r.1, r.2.1 ++ [.newTabGoto], none)
  else
    let evs' := if idx > 1 then r.2.1 ++ [.newTabGoto] else r.2.1
    let evs'' :=
      match c.timeframe_box with
      | some n => if n ≠ 0 then evs' ++ [.chartstyleBoxClick n] else evs'
      | none => evs'
    (r.1, evs'',
      some { chartlist := c.chartlist
             chart_name := c.chart_name
             screenshot_path := screenshotName c.tab_order c.chartlist c.chart_name c.timeframe_box
             timeframe_box := c.timeframe_box
             notes := c.notes })

/-- Result of the request loop of `open_charts_from_excel`: the ordered
`(tab_order, info)` insertions of the successful requests, the event
trace, the `was_cached` flag recorded per request, and the final state. -/
structure LoopRes where
  tabs : List (Int × TabInfo)
  events : List Event
  flags : List Bool
  state : NavState
deriving DecidableEq, Repr

/-- The `for idx, config in enumerate(chart_configs, 1)` loop of
`open_charts_from_excel` (stockcharts_controller.py lines 1671-1744). -/
def processBatch (env : Env) : NavState → Nat → List ChartConfig → LoopRes
  | s, _, [] => ⟨[], [], [], s⟩
  | s, idx, c :: rest =>
    let wasCached := s.current_chartlist == some c.chartlist
    let r1 := processRequest env s idx c
    let r := processBatch env r1.1 (idx + 1) rest
    ⟨(match r1.2.2 with
      | some e => (c.tab_order, e) :: r.tabs
      | none => r.tabs),
     r1.2.1 ++ r.events, wasCached :: r.flags, r.state⟩

/-- Python-dict insertion on an association list: overwrite in place when
the key exists, append otherwise. -/
def dictInsert {α β : Type} [BEq α] : List (α × β) → α → β → List (α × β)
  | [], a, b => [(a, b)]
  | (k, v) :: m, a, b =>
    if k == a then (k, b) :: m else (k, v) :: dictInsert m a b

/-- Build a Python dict from the ordered insertions. -/
def dictOfList {α β : Type} [BEq α] (l : List (α × β)) : List (α × β) :=
  l.foldl (fun m p => dictInsert m p.1 p.2) []

/-- The outcome of `open_charts_from_excel`: the `opened_tabs` dict, the
event trace, the per-request `was_cached` flags (cache hits are the
`true`s, misses the `false`s), and the final controller state. -/
structure BatchOutcome where
  tabs : List (Int × TabInfo)
  events : List Event
  cachedFlags : List Bool
  final : NavState
deriving DecidableEq, Repr

/-- Shallow embedding of `StockChartsController.open_charts_from_excel`
(stockcharts_controller.py lines 1620-1774): load the configuration (a
loader exception is caught and yields the empty dict), reset the
`current_chartlist` cache, search the hub ticker `AMZN`, then process the
requests in order, keying successful tabs by `tab_order`. -/
def open_charts_from_excel (env : Env) (s : NavState) (rows : List RawRow) :
    BatchOutcome :=
  match load_chart_configs rows with
  | .error _ => ⟨[], [], [], s⟩
  | .ok configs =>
    let s0 : NavState := { s with current_chartlist := none }
    let r := processBatch env s0 1 configs
    ⟨dictOfList r.tabs, .searchTicker "AMZN" :: r.events, r.flags, r.state⟩

/-! ## `BrowserSessionManager` (src/src/browser/browser_session_manager.py) -/

/-- The fields of `StockChartsController.__init__`
(stockcharts_controller.py lines 22-53) relevant to session persistence. -/
structure Controller where
  username : String
  password : String
  screenshot_dir : String
  session_id : String
  session_file : String
deriving DecidableEq, Repr

/-- `StockChartsController.__init__` (stockcharts_controller.py lines
22-53): `self.session_id = session_id or "default"` (so `None` and the
empty string both yield `"default"`), and
`self.session_file = Path(f"browser_session_{self.session_id}.json")`. -/
def mkController (username password screenshot_dir : String)
    (session_id : Option String) : Controller :=
  let sid :=
    match session_id with
    | none => "default"
    | some s => if s = "" then "default" else s
  { username := username
    password := password
    screenshot_dir := screenshot_dir
    session_id := sid
    session_file := "browser_session_" ++ sid ++ ".json" }

/-- Shallow embedding of `BrowserSessionManager.create_session`
(browser_session_manager.py lines 25-76): return the existing controller
when the id is already registered; otherwise build a controller — passing
username, password, the session-specific screenshot directory and the
config, but (as in the source) not the `session_id` — and register it. -/
def create_session (sessions : List (String × Controller))
    (session_id username password : String) (screenshot_dir : Option String) :
    List (String × Controller) × Controller :=
  match sessions.lookup session_id with
  | some c => (sessions, c)
  | none =>
    let sdir := screenshot_dir.getD ("screenshots/" ++ session_id)
    let c := mkController username password sdir none
    (sessions ++ [(session_id, c)], c)

/-- The visible outcome of one task of `run_parallel_tasks`: the
`{"success": ..., ...}` dict or the `{"error": message}` dict. -/
inductive TaskOutcome where
  | success (info : Nat)
  | error (msg : String)
deriving DecidableEq, Repr

/-- What the dispatched controller call does when a task runs: return a
result (summarised by a number) or raise an exception. -/
inductive ExecOutcome where
  | ok (result : Nat)
  | raise (msg : String)
deriving DecidableEq, Repr

/-- One task passed to `run_parallel_tasks`, together with the behavior of
the controller call it dispatches (the live-browser side effect supplied
by the environment). -/
structure PTask where
  session_id : String
  task_type : String
  exec : ExecOutcome
deriving DecidableEq, Repr

/-- The inner `run_task` coroutine of `run_parallel_tasks`
(browser_session_manager.py lines 186-221): missing session ⇒
`{"error": "Session not found"}`; known task types dispatch to the
controller, catching any exception as `{"error": str(e)}`; unknown task
types ⇒ `{"error": "Unknown task type: ..."}`. -/
def run_task (sessions : List String) (t : PTask) : String × TaskOutcome :=
  if !sessions.contains t.session_id then
    (t.session_id, .error "Session not found")
  else if t.task_type == "chartlist-batch" || t.task_type == "chartlist-viewer"
      || t.task_type == "multi-timeframe" then
    match t.exec with
    | .ok n => (t.session_id, .success n)
    | .raise msg => (t.session_id, .error msg)
  else
    (t.session_id, .error ("Unknown task type: " ++ t.task_type))

/-- Shallow embedding of `BrowserSessionManager.run_parallel_tasks`
(browser_session_manager.py lines 168-237): each task is dispatched
independently and its `(session_id, outcome)` pair collected into the
results dict. -/
def run_parallel_tasks (sessions : List String) (tasks : List PTask) :
    List (String × TaskOutcome) :=
  dictOfList (tasks.map (run_task sessions))

/-! ## `WindowPositioner` (src/src/browser/browser_session_manager.py) -/

/-- A window rectangle as returned by `get_split_screen_positions`. -/
structure WinPos where
  x : Int
  y : Int
  width : Int
  height : Int
deriving DecidableEq, Repr

/-- Shallow embedding of `WindowPositioner.get_split_screen_positions`
(browser_session_manager.py lines 243-311).  Python's `//` is floor
division, hence `Int.fdiv`. -/
def get_split_screen_positions (num_windows : Nat)
    (monitor_width monitor_height monitor_x monitor_y : Int) : List WinPos :=
  if num_windows == 1 then
    [⟨monitor_x, monitor_y, monitor_width, monitor_height⟩]
  else if num_windows == 2 then
    let half_width := monitor_width.fdiv 2
    [⟨monitor_x, monitor_y, half_width, monitor_height⟩,
     ⟨monitor_x + half_width, monitor_y, half_width, monitor_height⟩]
  else if num_windows ≤ 4 then
    let half_width := monitor_width.fdiv 2
    let half_height := monitor_height.fdiv 2
    ([⟨monitor_x, monitor_y, half_width, half_height⟩,
      ⟨monitor_x + half_width, monitor_y, half_width, half_height⟩,
      ⟨monitor_x, monitor_y + half_height, half_width, half_height⟩,
      ⟨monitor_x + half_width, monitor_y + half_height, half_width, half_height⟩]).take num_windows
  else
    (List.range num_windows).map (fun i =>
      ⟨monitor_x + (i : Int) * 50, monitor_y + (i : Int) * 50,
       min (monitor_width - (i : Int) * 50) 1200,
       min (monitor_height - (i : Int) * 50) 800⟩)

/-- A horizontal coordinate lies in the x-extent of a window rectangle. -/
def inXExtent (p : WinPos) (x : Int) : Prop :=
  p.x ≤ x ∧ x < p.x + p.width

/-! ## Concrete page environments and inputs used to instantiate the
theorems -/

/-- A fully cooperative page: every element probe succeeds and every
navigation works. -/
def allOkEnv : Env :=
  { chartlistButton := true
    chartlistEntry := fun _ => true
    chartlistEntryFallback := fun _ => true
    chartButton := true
    chartEntry := fun _ => true
    chartEntryFallback := fun _ => true
    gotoOk := fun _ => true
    loginGotoOk := true
    usernameFieldFound := true
    passwordFieldFound := true
    successIndicator := true
    errorIndicator := false
    finalUrl := "https://stockcharts.com/acct"
    newTabOk := fun _ => true }

/-- A dead page: no element is ever found and every navigation fails. -/
def offlineEnv : Env :=
  { chartlistButton := false
    chartlistEntry := fun _ => false
    chartlistEntryFallback := fun _ => false
    chartButton := false
    chartEntry := fun _ => false
    chartEntryFallback := fun _ => false
    gotoOk := fun _ => false
    loginGotoOk := false
    usernameFieldFound := false
    passwordFieldFound := false
    successIndicator := false
    errorIndicator := false
    finalUrl := "https://stockcharts.com/login/index.php"
    newTabOk := fun _ => false }

/-- A page whose chart-selection dropdown is missing while the ChartList
dropdown works: the ChartList entry gets clicked, then the chart step
falls back to direct URL navigation. -/
def chartMissingEnv : Env :=
  { allOkEnv with
    chartButton := false
    chartEntry := fun _ => false
    chartEntryFallback := fun _ => false }

/-- The ambiguous post-login page: both credential fields were found and
the form was submitted, but neither a success indicator nor an error
message is present and the browser ended up away from the login page. -/
def ambiguousLoginEnv : Env :=
  { offlineEnv with
    loginGotoOk := true
    usernameFieldFound := true
    passwordFieldFound := true
    finalUrl := "https://stockcharts.com/dashboard" }

/-- The ambiguous post-login page when the browser is still on the login
page. -/
def ambiguousStillOnLoginEnv : Env :=
  { ambiguousLoginEnv with finalUrl := "https://stockcharts.com/login/index.php" }

/-- The batch of the end-to-end scenario: `(A, X, 1)`, `(A, Y, 2)`,
`(B, Z, 3)`. -/
def batchRowsAXYBZ : List RawRow :=
  [ ⟨some (.str "A"), some (.str "X"), some (.int 1), none, none⟩,
    ⟨some (.str "A"), some (.str "Y"), some (.int 2), none, none⟩,
    ⟨some (.str "B"), some (.str "Z"), some (.int 3), none, none⟩ ]

/-- A single valid request whose navigation will fail on a dead page. -/
def singleRequestRows : List RawRow :=
  [⟨some (.str "Alpha"), some (.str "AAPL"), some (.int 1), none, none⟩]

/-- The configuration the single request parses to. -/
def singleRequestConfigs : List ChartConfig :=
  [⟨"Alpha", "AAPL", 1, none, ""⟩]

/-- A mixed table: a valid row with `TabOrder` 2, a row with a missing
`ChartList` (dropped), and a valid row with a missing `TabOrder`
(defaulted to 999). -/
def mixedRows : List RawRow :=
  [ ⟨some (.str "Lists"), some (.str "MSFT"), some (.int 2), none, none⟩,
    ⟨none, some (.str "IGNORED"), some (.int 1), none, none⟩,
    ⟨some (.str "Other"), some (.str "NVDA"), none, none, none⟩ ]

/-- What `mixedRows` loads to. -/
def mixedConfigs : List ChartConfig :=
  [⟨"Lists", "MSFT", 2, none, ""⟩, ⟨"Other", "NVDA", 999, none, ""⟩]

/-- A row whose `TabOrder` cell holds text that does not parse as an
integer. -/
def unparseableTabOrderRows : List RawRow :=
  [⟨some (.str "Alpha"), some (.str "AAPL"), some (.str "first"), none, none⟩]

/-- Two parallel tasks: the first one raises during execution. -/
def twoTasks : List PTask :=
  [⟨"s1", "chartlist-batch", .raise "boom"⟩, ⟨"s2", "chartlist-batch", .ok 3⟩]

/-- What `batchRowsAXYBZ` loads to. -/
def batchConfigsAXYBZ : List ChartConfig :=
  [⟨"A", "X", 1, none, ""⟩, ⟨"A", "Y", 2, none, ""⟩, ⟨"B", "Z", 3, none, ""⟩]

/-! ## Helper lemmas -/

theorem mapExcept_forall₂ {α β : Type} (f : α → Except String β) :
    ∀ (l : List α) (l' : List β), mapExcept f l = .ok l' →
      List.Forall₂ (fun a b => f a = .ok b) l l' := by
  intro l
  induction l with
  | nil =>
    intro l' h
    simp only [mapExcept] at h
    cases h
    exact List.Forall₂.nil
  | cons a t ih =>
    intro l' h
    simp only [mapExcept] at h
    cases hfa : f a with
    | error e => rw [hfa] at h; simp [Bind.bind, Except.bind] at h
    | ok b =>
      rw [hfa] at h
      cases hmt : mapExcept f t with
      | error e => rw [hmt] at h; simp [Bind.bind, Except.bind] at h
      | ok bs =>
        rw [hmt] at h
        simp only [Bind.bind, Except.bind, pure, Except.pure, Except.ok.injEq] at h
        subst h
        exact List.Forall₂.cons hfa (ih bs hmt)

theorem forall₂_exists_right {α β : Type} {R : α → β → Prop}
    {l : List α} {l' : List β} (h : List.Forall₂ R l l') :
    ∀ b ∈ l', ∃ a ∈ l, R a b := by
  induction h with
  | nil => intro b hb; cases hb
  | cons hab _ ih =>
    intro b hb
    rcases List.mem_cons.mp hb with hb | hb
    · exact ⟨_, List.mem_cons_self .., hb ▸ hab⟩
    · obtain ⟨a, ha, hr⟩ := ih b hb
      exact ⟨a, List.mem_cons_of_mem _ ha, hr⟩

theorem forall₂_exists_left {α β : Type} {R : α → β → Prop}
    {l : List α} {l' : List β} (h : List.Forall₂ R l l') :
    ∀ a ∈ l, ∃ b ∈ l', R a b := by
  induction h with
  | nil => intro a ha; cases ha
  | cons hab _ ih =>
    intro a ha
    rcases List.mem_cons.mp ha with ha | ha
    · exact ⟨_, List.mem_cons_self .., ha ▸ hab⟩
    · obtain ⟨b, hb, hr⟩ := ih a ha
      exact ⟨b, List.mem_cons_of_mem _ hb, hr⟩

theorem load_ok_elim (rows : List RawRow) (configs : List ChartConfig)
    (h : load_chart_configs rows = .ok configs) :
    ∃ cs, mapExcept rowConfig (rows.filter rowKept) = .ok cs ∧
      configs = List.insertionSort tabOrderLE cs ∧
      (rows.filter rowKept).isEmpty = false := by
  unfold load_chart_configs at h
  by_cases hk : (rows.filter rowKept).isEmpty
  · simp [hk, Bind.bind, Except.bind, throw, throwThe, MonadExceptOf.throw] at h
  · cases hm : mapExcept rowConfig (rows.filter rowKept) with
    | error e =>
      rw [if_neg hk, hm] at h
      simp [Bind.bind, Except.bind, pure, Except.pure] at h
    | ok cs =>
      rw [if_neg hk, hm] at h
      simp only [Bind.bind, Except.bind, pure, Except.pure, Except.ok.injEq] at h
      exact ⟨cs, rfl, h.symm, Bool.of_not_eq_true hk⟩

theorem load_ok_ne_nil (rows : List RawRow) (configs : List ChartConfig)
    (h : load_chart_configs rows = .ok configs) : configs ≠ [] := by
  obtain ⟨cs, hm, hc, hk⟩ := load_ok_elim rows configs h
  have hlen : cs.length = (rows.filter rowKept).length :=
    ((mapExcept_forall₂ rowConfig _ _ hm).length_eq).symm
  have hk' : (rows.filter rowKept).length ≠ 0 := by
    intro h0
    rw [List.length_eq_zero] at h0
    rw [h0] at hk
    simp [List.isEmpty] at hk
  intro hnil
  rw [hnil] at hc
  have hcs : cs.length = 0 := by
    have hp := (List.perm_insertionSort tabOrderLE cs).length_eq
    rw [← hc] at hp
    simpa using hp.symm
  exact hk' (by rw [← hlen, hcs])

theorem dictInsert_length {α β : Type} [BEq α] (m : List (α × β)) (a : α) (b : β) :
    (dictInsert m a b).length ≤ m.length + 1 := by
  induction m with
  | nil => simp [dictInsert]
  | cons p t ih =>
    obtain ⟨k, v⟩ := p
    simp only [dictInsert]
    by_cases hka : (k == a) = true
    · simp [hka]
    · rw [if_neg hka]
      simp only [List.length_cons]
      omega

theorem mem_keys_dictInsert {α β : Type} [BEq α] (m : List (α × β)) (a : α) (b : β)
    (k : α) (hk : k ∈ (dictInsert m a b).map Prod.fst) :
    k = a ∨ k ∈ m.map Prod.fst := by
  induction m with
  | nil => simpa [dictInsert] using hk
  | cons p t ih =>
    obtain ⟨q, v⟩ := p
    simp only [dictInsert] at hk
    by_cases hq : (q == a) = true
    · rw [if_pos hq] at hk
      simp only [List.map_cons, List.mem_cons] at hk ⊢
      tauto
    · rw [if_neg hq] at hk
      simp only [List.map_cons, List.mem_cons] at hk ⊢
      rcases hk with hk | hk
      · tauto
      · rcases ih hk with h | h <;> tauto

theorem lookup_dictInsert {α β : Type} [BEq α] [LawfulBEq α]
    (m : List (α × β)) (a c : α) (b : β) :
    (dictInsert m a b).lookup c = if c == a then some b else m.lookup c := by
  induction m with
  | nil =>
    cases hca : c == a <;> simp [dictInsert, List.lookup, hca]
  | cons p t ih =>
    obtain ⟨k, v⟩ := p
    simp only [dictInsert]
    by_cases hka : (k == a) = true
    · have hka' : k = a := by simpa using hka
      subst hka'
      rw [if_pos hka]
      cases hck : c == k <;> simp [List.lookup, hck]
    · rw [if_neg hka]
      cases hck : c == k
      · simp [List.lookup, hck, ih]
      · have hc : c = k := by simpa using hck
        subst hc
        have hca : (c == a) = false := by
          rw [Bool.eq_false_iff]
          exact hka
        simp [List.lookup, hca]

theorem length_foldl_dictInsert {α β : Type} [BEq α] (l : List (α × β)) :
    ∀ acc : List (α × β),
      (l.foldl (fun m p => dictInsert m p.1 p.2) acc).length ≤ acc.length + l.length := by
  induction l with
  | nil => intro acc; simp
  | cons p t ih =>
    intro acc
    simp only [List.foldl_cons, List.length_cons]
    calc (t.foldl (fun m p => dictInsert m p.1 p.2) (dictInsert acc p.1 p.2)).length
        ≤ (dictInsert acc p.1 p.2).length + t.length := ih _
      _ ≤ acc.length + 1 + t.length := by
          have := dictInsert_length acc p.1 p.2
          omega
      _ = acc.length + (t.length + 1) := by omega

theorem mem_keys_foldl_dictInsert {α β : Type} [BEq α] (l : List (α × β)) :
    ∀ (acc : List (α × β)) (k : α),
      k ∈ (l.foldl (fun m p => dictInsert m p.1 p.2) acc).map Prod.fst →
      k ∈ acc.map Prod.fst ∨ k ∈ l.map Prod.fst := by
  induction l with
  | nil => intro acc k hk; simpa using hk
  | cons p t ih =>
    intro acc k hk
    simp only [List.foldl_cons] at hk
    rcases ih (dictInsert acc p.1 p.2) k hk with h | h
    · rcases mem_keys_dictInsert acc p.1 p.2 k h with h | h
      · right; simp [h]
      · left; exact h
    · right
      simp only [List.map_cons, List.mem_cons]
      tauto

theorem lookup_foldl_isSome {α β : Type} [BEq α] [LawfulBEq α] (l : List (α × β)) :
    ∀ (acc : List (α × β)) (c : α),
      ((l.foldl (fun m p => dictInsert m p.1 p.2) acc).lookup c).isSome = true ↔
        ((acc.lookup c).isSome = true ∨ ∃ p ∈ l, p.1 = c) := by
  induction l with
  | nil => intro acc c; simp
  | cons p t ih =>
    intro acc c
    simp only [List.foldl_cons]
    rw [ih]
    rw [lookup_dictInsert]
    by_cases hcp : (c == p.1) = true
    · have hc : c = p.1 := by simpa using hcp
      subst hc
      rw [if_pos (by simp : (p.1 == p.1) = true)]
      constructor
      · intro _
        exact Or.inr ⟨p, List.mem_cons_self .., rfl⟩
      · intro _
        left
        simp
    · rw [if_neg hcp]
      have hne : p.1 ≠ c := by
        intro h
        rw [h] at hcp
        simp at hcp
      constructor
      · rintro (h | ⟨q, hq, hqc⟩)
        · exact Or.inl h
        · exact Or.inr ⟨q, List.mem_cons_of_mem _ hq, hqc⟩
      · rintro (h | ⟨q, hq, hqc⟩)
        · exact Or.inl h
        · rcases List.mem_cons.mp hq with rfl | hq
          · exact absurd hqc hne
          · exact Or.inr ⟨q, hq, hqc⟩

theorem lookup_foldl_of_all {α β : Type} [BEq α] [LawfulBEq α] (l : List (α × β)) :
    ∀ (acc : List (α × β)) (c : α) (v : β),
      (∀ q ∈ l, q.1 = c → q.2 = v) →
      (acc.lookup c = some v ∨ ∃ q ∈ l, q.1 = c) →
      (l.foldl (fun m p => dictInsert m p.1 p.2) acc).lookup c = some v := by
  induction l with
  | nil =>
    intro acc c v _ hsome
    rcases hsome with h | ⟨q, hq, _⟩
    · simpa using h
    · cases hq
  | cons p t ih =>
    intro acc c v hall hsome
    simp only [List.foldl_cons]
    by_cases hpc : p.1 = c
    · have hv : p.2 = v := hall p (List.mem_cons_self ..) hpc
      apply ih
      · intro q hq hqc
        exact hall q (List.mem_cons_of_mem _ hq) hqc
      · left
        rw [lookup_dictInsert]
        have hb : (c == p.1) = true := by simp [hpc.symm]
        rw [if_pos hb, hv]
    · apply ih
      · intro q hq hqc
        exact hall q (List.mem_cons_of_mem _ hq) hqc
      · rcases hsome with h | ⟨q, hq, hqc⟩
        · left
          rw [lookup_dictInsert]
          have hb : ¬((c == p.1) = true) := by
            simp only [beq_iff_eq]
            exact fun hc => hpc hc.symm
          rw [if_neg hb]
          exact h
        · rcases List.mem_cons.mp hq with rfl | hq
          · exact absurd hqc hpc
          · right; exact ⟨q, hq, hqc⟩

theorem login_current_chartlist (env : Env) (s : NavState) :
    (login env s).1.current_chartlist = s.current_chartlist := by
  unfold login
  repeat' split
  all_goals rfl

theorem navigate_to_chart_current_chartlist (env : Env) (s : NavState) (t : String) :
    (navigate_to_chart env s t).1.current_chartlist = s.current_chartlist := by
  by_cases hl : s.is_logged_in = true
  · simp only [navigate_to_chart, hl, if_true]
    split <;> rfl
  · simp only [navigate_to_chart, hl, if_false, Bool.false_eq_true]
    split
    · simp [login_current_chartlist]
    · split <;> simp [login_current_chartlist]

theorem chartSelectStep_current_chartlist (env : Env) (s : NavState) (c : String) :
    (chartSelectStep env s c).1.current_chartlist = s.current_chartlist := by
  unfold chartSelectStep
  repeat' split
  all_goals simp [navigate_to_chart_current_chartlist]

theorem navigate_to_chart_no_dropdown (env : Env) (s : NavState) (t : String) :
    (navigate_to_chart env s t).2.1.count Event.chartlistDropdownClick = 0 := by
  by_cases hl : s.is_logged_in = true
  · simp only [navigate_to_chart, hl, if_true]
    split <;> simp [List.count_cons, List.count_nil]
  · simp only [navigate_to_chart, hl, if_false, Bool.false_eq_true]
    split
    · simp [List.count_nil]
    · split <;> simp [List.count_cons, List.count_nil]

theorem chartSelectStep_no_dropdown (env : Env) (s : NavState) (c : String) :
    (chartSelectStep env s c).2.1.count Event.chartlistDropdownClick = 0 := by
  unfold chartSelectStep
  repeat' split
  all_goals simp [List.count_cons, List.count_nil, navigate_to_chart_no_dropdown]

theorem navigate_via_cc_of_found (env : Env) (s : NavState) (cl chart : String)
    (hbtn : env.chartlistButton = true)
    (hfind : env.chartlistEntry cl = true ∨ env.chartlistEntryFallback cl = true) :
    (navigate_via_chartlist_dropdown env s cl chart).1.current_chartlist = some cl := by
  unfold navigate_via_chartlist_dropdown
  by_cases hcc : (s.current_chartlist == some cl) = true
  · rw [if_pos hcc]
    rw [chartSelectStep_current_chartlist]
    simpa using hcc
  · rw [if_neg hcc]
    rw [if_neg (by simp [hbtn])]
    rcases hfind with hf | hf
    · rw [if_pos hf]
      simp [chartSelectStep_current_chartlist]
    · by_cases he : env.chartlistEntry cl = true
      · rw [if_pos he]
        simp [chartSelectStep_current_chartlist]
      · rw [if_neg he, if_pos hf]
        simp [chartSelectStep_current_chartlist]

theorem navigate_via_cache_hit_no_dropdown (env : Env) (s : NavState) (cl chart : String)
    (h : s.current_chartlist = some cl) :
    (navigate_via_chartlist_dropdown env s cl chart).2.1.count
      Event.chartlistDropdownClick = 0 := by
  unfold navigate_via_chartlist_dropdown
  rw [if_pos (by simp [h])]
  exact chartSelectStep_no_dropdown env s chart

theorem processBatch_tabs_keys (env : Env) :
    ∀ (cs : List ChartConfig) (s : NavState) (idx : Nat) (p : Int × TabInfo),
      p ∈ (processBatch env s idx cs).tabs → p.1 ∈ cs.map ChartConfig.tab_order := by
  intro cs
  induction cs with
  | nil => intro s idx p hp; simp [processBatch] at hp
  | cons c rest ih =>
    intro s idx p hp
    simp only [processBatch] at hp
    simp only [List.map_cons, List.mem_cons]
    rcases hr : (processRequest env s idx c).2.2 with _ | e
    · rw [hr] at hp
      exact Or.inr (ih _ _ p hp)
    · rw [hr] at hp
      rcases List.mem_cons.mp hp with hp | hp
      · left; rw [hp]
      · exact Or.inr (ih _ _ p hp)

theorem processBatch_tabs_length (env : Env) :
    ∀ (cs : List ChartConfig) (s : NavState) (idx : Nat),
      (processBatch env s idx cs).tabs.length ≤ cs.length := by
  intro cs
  induction cs with
  | nil => intro s idx; simp [processBatch]
  | cons c rest ih =>
    intro s idx
    have hih := ih (processRequest env s idx c).1 (idx + 1)
    cases hr : (processRequest env s idx c).2.2 with
    | none =>
      simp only [processBatch, hr, List.length_cons]
      omega
    | some e =>
      simp only [processBatch, hr, List.length_cons]
      omega

theorem beq_none_some {α : Type} [BEq α] (a : α) :
    ((none : Option α) == some a) = false := rfl

theorem beq_some_some {α : Type} [BEq α] (a b : α) :
    ((some a : Option α) == some b) = (a == b) := rfl

theorem navigate_to_chart_goto_mem (env : Env) (s : NavState) (t : String)
    (hlog : s.is_logged_in = true) :
    Event.gotoChartUrl t ∈ (navigate_to_chart env s t).2.1 := by
  simp only [navigate_to_chart, hlog, if_true]
  split <;> simp

theorem chartSelectStep_fallback_goto (env : Env) (s : NavState) (chart : String)
    (hlog : s.is_logged_in = true)
    (hfail : env.chartButton = false ∨
      (env.chartEntry chart = false ∧ env.chartEntryFallback chart = false)) :
    Event.gotoChartUrl chart ∈ (chartSelectStep env s chart).2.1 := by
  cases hcb : env.chartButton with
  | false =>
    simp only [chartSelectStep, hcb, Bool.not_false, if_true]
    exact navigate_to_chart_goto_mem env s chart hlog
  | true =>
    rcases hfail with hf | ⟨h1, h2⟩
    · rw [hcb] at hf
      cases hf
    · simp only [chartSelectStep, hcb, h1, h2, Bool.not_true, Bool.false_eq_true,
        if_false, List.mem_cons]
      exact Or.inr (navigate_to_chart_goto_mem env s chart hlog)

theorem run_task_fst (sessions : List String) (t : PTask) :
    (run_task sessions t).1 = t.session_id := by
  unfold run_task
  repeat' split
  all_goals rfl

/-! ## Claim theorems -/

/-- C9: writing the template file (`create_template`) and reading it back
(`load_chart_configs`) yields entries equal, field by field, to the
template's declared sample rows; in particular the first entry is
`{chartlist: "My Watchlist", chart_name: "AAPL", tab_order: 1,
timeframe_box: none, notes: "Check resistance at 180"}`.  The template's
column headers all normalize to themselves. -/
theorem template_round_trip :
    load_chart_configs create_template = .ok
      [ ⟨"My Watchlist", "AAPL", 1, none, "Check resistance at 180"⟩,
        ⟨"My Watchlist", "MSFT", 2, none, "Earnings next week"⟩,
        ⟨"Tech Stocks", "NVDA", 3, some 7, "60min chart - watch volume"⟩,
        ⟨"Energy Sector", "XLE", 4, none, "Oil sector ETF"⟩,
        ⟨"Small Caps", "AEIS", 5, some 10, "5min chart - day trade setup"⟩ ] ∧
    normalizeColumn "ChartList" = some "ChartList" ∧
    normalizeColumn "ChartName" = some "ChartName" ∧
    normalizeColumn "TabOrder" = some "TabOrder" ∧
    normalizeColumn "TimeframeBox" = some "TimeframeBox" ∧
    normalizeColumn "Notes" = some "Notes" := by
  decide

/-- C10: `get_split_screen_positions` with two windows on a 1920×1080
monitor returns exactly two rectangles of width 960 and height 1080 whose
x-extents are disjoint and together cover `[0, 1920)` exactly. -/
theorem split_screen_two_windows_tile :
    (get_split_screen_positions 2 1920 1080 0 0).length = 2 ∧
    (∀ p ∈ get_split_screen_positions 2 1920 1080 0 0,
        p.width = 960 ∧ p.height = 1080) ∧
    (∀ x : Int, (0 ≤ x ∧ x < 1920) ↔
        ∃ p ∈ get_split_screen_positions 2 1920 1080 0 0, inXExtent p x) ∧
    (∀ x : Int, ∀ p ∈ get_split_screen_positions 2 1920 1080 0 0,
        ∀ q ∈ get_split_screen_positions 2 1920 1080 0 0,
          inXExtent p x → inXExtent q x → p = q) := by
  have hps : get_split_screen_positions 2 1920 1080 0 0 =
      [⟨0, 0, 960, 1080⟩, ⟨960, 0, 960, 1080⟩] := by decide
  refine ⟨by simp [hps], ?_, ?_, ?_⟩
  · intro p hp
    rw [hps] at hp
    simp only [List.mem_cons, List.not_mem_nil, or_false] at hp
    rcases hp with rfl | rfl <;> exact ⟨rfl, rfl⟩
  · intro x
    rw [hps]
    constructor
    · rintro ⟨h0, h1⟩
      by_cases hx : x < 960
      · refine ⟨⟨0, 0, 960, 1080⟩, by simp, ?_⟩
        simp only [inXExtent]
        omega
      · refine ⟨⟨960, 0, 960, 1080⟩, by simp, ?_⟩
        simp only [inXExtent]
        omega
    · rintro ⟨p, hp, hx⟩
      simp only [List.mem_cons, List.not_mem_nil, or_false] at hp
      rcases hp with rfl | rfl <;>
        (simp only [inXExtent] at hx; constructor <;> omega)
  · intro x p hp q hq hxp hxq
    rw [hps] at hp hq
    simp only [List.mem_cons, List.not_mem_nil, or_false] at hp hq
    rcases hp with rfl | rfl <;> rcases hq with rfl | rfl <;>
      first
        | rfl
        | (exfalso
           simp only [inXExtent] at hxp hxq
           omega)

/-- Witness for C10: the coverage direction applied at the concrete
coordinate 1000. -/
theorem split_screen_two_windows_tile_witness :
    ∃ p ∈ get_split_screen_positions 2 1920 1080 0 0, inXExtent p 1000 :=
  (split_screen_two_windows_tile.2.2.1 1000).mp (by omega)

/-- C5 (code bug): two sessions created through
`BrowserSessionManager.create_session` with the distinct ids `session1`
and `session2` end up with the same persisted session-state file path
`browser_session_default.json`, because `create_session` never forwards
the session id to the controller constructor. -/
theorem create_session_ignores_session_id :
    (create_session [] "session1" "user" "pw" none).2.session_file =
      "browser_session_default.json" ∧
    (create_session (create_session [] "session1" "user" "pw" none).1
        "session2" "user" "pw" none).2.session_file =
      "browser_session_default.json" ∧
    (("session1" : String) == "session2") = false := by
  decide

/-- Counterexample for C4: with no success indicator, no error indicator,
and a final URL away from the login page, `login` cautiously assumes
success — it returns `True` and sets `is_logged_in`, instead of treating
the ambiguous outcome as failure. -/
theorem login_ambiguous_assumed_success_cex :
    (login ambiguousLoginEnv ⟨false, none, none⟩).2 = true ∧
    (login ambiguousLoginEnv ⟨false, none, none⟩).1.is_logged_in = true := by
  decide

/-- C4 (amended): when neither a success indicator nor an error message is
found after form submission, `login` reports failure (and leaves
`is_logged_in` false) only when the final URL still contains `login` or
`signin`; otherwise success is cautiously assumed. -/
theorem login_ambiguous_on_login_page_fails (env : Env) (s : NavState)
    (h0 : s.is_logged_in = false)
    (h1 : env.successIndicator = false)
    (h2 : env.errorIndicator = false)
    (h3 : (strContains (strLower env.finalUrl) "login" ||
        strContains (strLower env.finalUrl) "signin") = true) :
    (login env s).2 = false ∧ (login env s).1.is_logged_in = false := by
  have hl : login env s = (s, false) := by
    unfold login
    rw [if_neg (by simp [h0])]
    split
    · rfl
    · split
      · rfl
      · split
        · rfl
        · simp [h1, h2, h3]
  rw [hl]
  exact ⟨rfl, h0⟩

/-- Witness for C4: the ambiguous outcome on a page still at the login
URL is reported as failure. -/
theorem login_ambiguous_on_login_page_fails_witness :
    (login ambiguousStillOnLoginEnv ⟨false, none, none⟩).2 = false ∧
    (login ambiguousStillOnLoginEnv ⟨false, none, none⟩).1.is_logged_in = false :=
  login_ambiguous_on_login_page_fails ambiguousStillOnLoginEnv ⟨false, none, none⟩
    rfl rfl rfl (by decide)

/-- Counterexample for C7: a row whose `TabOrder` cell holds the
non-numeric text `"first"` makes `load_chart_configs` raise instead of
assigning tab order 999. -/
theorem load_unparseable_taborder_raises_cex :
    load_chart_configs unparseableTabOrderRows = .error "invalid literal for int()" := by
  decide

/-- C7 (amended): whenever `load_chart_configs` returns, its entries are
sorted by `tab_order` ascending, they are exactly the converted rows with
non-missing `ChartList` and `ChartName` (empty rows are dropped), and a
row with a missing `TabOrder` cell is assigned tab order 999; a present
but non-integer `TabOrder` makes the load raise instead. -/
theorem load_chart_configs_spec (rows : List RawRow) (configs : List ChartConfig)
    (h : load_chart_configs rows = .ok configs) :
    List.Sorted tabOrderLE configs ∧
    (∀ c ∈ configs, ∃ r ∈ rows, rowKept r = true ∧ rowConfig r = .ok c) ∧
    (∀ r ∈ rows, rowKept r = true → ∃ c ∈ configs, rowConfig r = .ok c) ∧
    (∀ r : RawRow, r.tabOrder = none → ∀ c, rowConfig r = .ok c → c.tab_order = 999) := by
  obtain ⟨cs, hm, hc, hk⟩ := load_ok_elim rows configs h
  have hf := mapExcept_forall₂ rowConfig _ _ hm
  refine ⟨?_, ?_, ?_, ?_⟩
  · rw [hc]
    exact List.sorted_insertionSort tabOrderLE cs
  · intro c hcmem
    rw [hc] at hcmem
    have hcs : c ∈ cs := (List.mem_insertionSort tabOrderLE).mp hcmem
    obtain ⟨r, hr, hrc⟩ := forall₂_exists_right hf c hcs
    have hrr := List.mem_filter.mp hr
    exact ⟨r, hrr.1, hrr.2, hrc⟩
  · intro r hr hkept
    have hrk : r ∈ rows.filter rowKept := List.mem_filter.mpr ⟨hr, hkept⟩
    obtain ⟨c, hcmem, hrc⟩ := forall₂_exists_left hf r hrk
    refine ⟨c, ?_, hrc⟩
    rw [hc]
    exact (List.mem_insertionSort tabOrderLE).mpr hcmem
  · intro r hto c hrc
    unfold rowConfig at hrc
    rw [hto] at hrc
    cases htf : r.timeframeBox with
    | none =>
      rw [htf] at hrc
      simp only [Bind.bind, Except.bind, pure, Except.pure, Except.ok.injEq] at hrc
      rw [← hrc]
    | some v =>
      rw [htf] at hrc
      cases hpi : pyInt? v with
      | none =>
        simp [hpi, Bind.bind, Except.bind, pure, Except.pure, throw, throwThe,
          MonadExceptOf.throw] at hrc
      | some n =>
        simp only [hpi, Bind.bind, Except.bind, pure, Except.pure,
          Except.ok.injEq] at hrc
        rw [← hrc]

/-- Witness for C7: applying the specification to the mixed table whose
second row is dropped and whose third row has a missing `TabOrder`. -/
theorem load_chart_configs_spec_witness :
    List.Sorted tabOrderLE mixedConfigs ∧
    (⟨"Other", "NVDA", 999, none, ""⟩ : ChartConfig).tab_order = 999 :=
  ⟨(load_chart_configs_spec mixedRows mixedConfigs (by decide)).1,
   (load_chart_configs_spec mixedRows mixedConfigs (by decide)).2.2.2
     ⟨some (.str "Other"), some (.str "NVDA"), none, none, none⟩ rfl
     ⟨"Other", "NVDA", 999, none, ""⟩ (by decide)⟩

/-- Counterexample for C1: on a dead page the single request fails, so its
`tab_order` key is missing from the result map — the key set is empty, not
the input key set `{1}`. -/
theorem open_charts_drops_failed_request_cex :
    load_chart_configs singleRequestRows = .ok singleRequestConfigs ∧
    singleRequestConfigs.map ChartConfig.tab_order = [1] ∧
    (open_charts_from_excel offlineEnv ⟨true, none, none⟩
        singleRequestRows).tabs.map Prod.fst = [] := by
  decide

/-- C1 (amended): the key set of the result map of
`open_charts_from_excel` is a subset of the input `tab_order` values (it
is exactly the keys of the successfully opened requests), and the number
of entries in the map never exceeds the number of input requests. -/
theorem open_charts_keys_subset (env : Env) (s : NavState) (rows : List RawRow)
    (configs : List ChartConfig) (h : load_chart_configs rows = .ok configs) :
    (∀ k ∈ (open_charts_from_excel env s rows).tabs.map Prod.fst,
        k ∈ configs.map ChartConfig.tab_order) ∧
    (open_charts_from_excel env s rows).tabs.length ≤ configs.length := by
  constructor
  · intro k hk
    simp only [open_charts_from_excel, h] at hk
    unfold dictOfList at hk
    rcases mem_keys_foldl_dictInsert _ [] k hk with h0 | h0
    · simp at h0
    · rcases List.mem_map.mp h0 with ⟨p, hp, hpk⟩
      rw [← hpk]
      exact processBatch_tabs_keys env configs _ 1 p hp
  · simp only [open_charts_from_excel, h]
    unfold dictOfList
    have h1 := length_foldl_dictInsert
      (processBatch env { s with current_chartlist := none } 1 configs).tabs []
    have h2 := processBatch_tabs_length env configs
      { s with current_chartlist := none } 1
    simp only [List.length_nil] at h1
    omega

/-- Witness for C1: the amended bound applied to a cooperative page and
the single-request table. -/
theorem open_charts_keys_subset_witness :
    (open_charts_from_excel allOkEnv ⟨true, none, none⟩
        singleRequestRows).tabs.length ≤ singleRequestConfigs.length :=
  (open_charts_keys_subset allOkEnv ⟨true, none, none⟩ singleRequestRows
    singleRequestConfigs (by decide)).2

/-- C3: `open_charts_from_excel` resets the `current_chartlist` cache
before processing: its outcome does not depend on the incoming cache
value, and the first request of every batch records a cache miss
(`was_cached` is `false`). -/
theorem batch_cache_reset (env : Env) (s : NavState) (v : Option String)
    (rows : List RawRow) (configs : List ChartConfig)
    (h : load_chart_configs rows = .ok configs) :
    open_charts_from_excel env { s with current_chartlist := v } rows =
      open_charts_from_excel env s rows ∧
    (open_charts_from_excel env s rows).cachedFlags.head? = some false := by
  constructor
  · simp only [open_charts_from_excel, h]
  · have hne := load_ok_ne_nil rows configs h
    obtain ⟨c, rest, hcr⟩ : ∃ c rest, configs = c :: rest := by
      cases configs with
      | nil => exact absurd rfl hne
      | cons c rest => exact ⟨c, rest, rfl⟩
    rw [hcr] at h
    simp only [open_charts_from_excel, h, processBatch]
    rfl

/-- Witness for C3: a batch started with a stale cached ChartList still
records a miss on its first request. -/
theorem batch_cache_reset_witness :
    (open_charts_from_excel allOkEnv ⟨true, none, some "Stale"⟩
        batchRowsAXYBZ).cachedFlags.head? = some false :=
  (batch_cache_reset allOkEnv ⟨true, none, some "Stale"⟩ (some "Other")
    batchRowsAXYBZ batchConfigsAXYBZ (by decide)).2

/-- C6: in `navigate_via_chartlist_dropdown` the cache is updated right
after the ChartList entry is clicked and is not invalidated when the
subsequent chart selection fails and the function falls back to direct URL
navigation: after the call, `current_chartlist` equals the requested name
even though the page was navigated away by direct ticker URL. -/
theorem chartlist_cache_survives_chart_fallback (env : Env) (s : NavState)
    (cl chart : String)
    (hlog : s.is_logged_in = true)
    (hbtn : env.chartlistButton = true)
    (hfind : env.chartlistEntry cl = true ∨ env.chartlistEntryFallback cl = true)
    (hfail : env.chartButton = false ∨
      (env.chartEntry chart = false ∧ env.chartEntryFallback chart = false)) :
    (navigate_via_chartlist_dropdown env s cl chart).1.current_chartlist = some cl ∧
    Event.gotoChartUrl chart ∈ (navigate_via_chartlist_dropdown env s cl chart).2.1 := by
  refine ⟨navigate_via_cc_of_found env s cl chart hbtn hfind, ?_⟩
  unfold navigate_via_chartlist_dropdown
  by_cases hcc : (s.current_chartlist == some cl) = true
  · rw [if_pos hcc]
    exact chartSelectStep_fallback_goto env s chart hlog hfail
  · rw [if_neg hcc, if_neg (by simp [hbtn])]
    rcases hfind with hf | hf
    · rw [if_pos hf]
      simp only [List.mem_cons]
      right; right
      exact chartSelectStep_fallback_goto env
        { s with current_chartlist := some cl } chart hlog hfail
    · by_cases he : env.chartlistEntry cl = true
      · rw [if_pos he]
        simp only [List.mem_cons]
        right; right
        exact chartSelectStep_fallback_goto env
          { s with current_chartlist := some cl } chart hlog hfail
      · rw [if_neg he, if_pos hf]
        simp only [List.mem_cons]
        right; right
        exact chartSelectStep_fallback_goto env
          { s with current_chartlist := some cl } chart hlog hfail

/-- Witness for C6: the page misses its chart dropdown, the chartlist
`Lists` is selected, the chart step falls back to a direct navigation, and
the cache still reads `Lists`. -/
theorem chartlist_cache_survives_chart_fallback_witness :
    (navigate_via_chartlist_dropdown chartMissingEnv ⟨true, none, none⟩
        "Lists" "MSFT").1.current_chartlist = some "Lists" ∧
    Event.gotoChartUrl "MSFT" ∈
      (navigate_via_chartlist_dropdown chartMissingEnv ⟨true, none, none⟩
        "Lists" "MSFT").2.1 :=
  chartlist_cache_survives_chart_fallback chartMissingEnv ⟨true, none, none⟩
    "Lists" "MSFT" rfl rfl (Or.inl rfl) (Or.inl rfl)

/-- C8: `run_parallel_tasks` returns an entry for each task's session id;
a task whose dispatched call raises yields the `{error: message}` record
for its session, and a task's entry is a function of that task alone, so
other tasks' failures cannot affect it. -/
theorem run_parallel_tasks_fault_isolation (sessions : List String)
    (ts : List PTask) (t : PTask)
    (hmem : t ∈ ts)
    (huniq : ∀ t' ∈ ts, t'.session_id = t.session_id → t' = t) :
    (∀ sid, (((run_parallel_tasks sessions ts).lookup sid).isSome = true) ↔
        sid ∈ ts.map PTask.session_id) ∧
    (run_parallel_tasks sessions ts).lookup t.session_id =
      some (run_task sessions t).2 ∧
    (∀ msg, t.exec = .raise msg → sessions.contains t.session_id = true →
        t.task_type = "chartlist-batch" →
        (run_parallel_tasks sessions ts).lookup t.session_id =
          some (.error msg)) := by
  have hval : (run_parallel_tasks sessions ts).lookup t.session_id =
      some (run_task sessions t).2 := by
    unfold run_parallel_tasks dictOfList
    apply lookup_foldl_of_all
    · intro q hq hqc
      rcases List.mem_map.mp hq with ⟨t', ht', rfl⟩
      rw [run_task_fst] at hqc
      rw [huniq t' ht' hqc]
    · right
      exact ⟨run_task sessions t, List.mem_map_of_mem _ hmem, run_task_fst sessions t⟩
  refine ⟨?_, hval, ?_⟩
  · intro sid
    unfold run_parallel_tasks dictOfList
    rw [lookup_foldl_isSome]
    simp only [List.lookup_nil, Option.isSome_none, Bool.false_eq_true, false_or]
    constructor
    · rintro ⟨p, hp, hpc⟩
      rcases List.mem_map.mp hp with ⟨t', ht', rfl⟩
      rw [run_task_fst] at hpc
      rw [← hpc]
      exact List.mem_map_of_mem _ ht'
    · intro hsid
      rcases List.mem_map.mp hsid with ⟨t', ht', rfl⟩
      exact ⟨run_task sessions t', List.mem_map_of_mem _ ht', run_task_fst sessions t'⟩
  · intro msg hraise hcontains htype
    rw [hval]
    unfold run_task
    rw [if_neg (by rw [hcontains]; simp)]
    rw [if_pos (by rw [htype]; rfl)]
    rw [hraise]

/-- Witness for C8: of two parallel tasks the first raises `boom`; its
session's entry is the error record. -/
theorem run_parallel_tasks_fault_isolation_witness :
    (run_parallel_tasks ["s1", "s2"] twoTasks).lookup "s1" =
      some (.error "boom") :=
  (run_parallel_tasks_fault_isolation ["s1", "s2"] twoTasks
    ⟨"s1", "chartlist-batch", .raise "boom"⟩ (by decide) (by decide)).2.2
    "boom" rfl (by decide) rfl

/-- C2: ChartList selection is cache-idempotent — a second consecutive
call of `navigate_via_chartlist_dropdown` with the same chartlist name is
a cache hit and performs zero ChartList-dropdown interactions; and the
batch `[(A, X, 1), (A, Y, 2), (B, Z, 3)]` against a cooperative fake page
produces exactly two ChartList-dropdown opens (one for `A`, one for `B`),
not three. -/
theorem chartlist_selection_idempotent :
    (∀ (env : Env) (s : NavState) (cl c1 c2 : String),
        env.chartlistButton = true →
        (env.chartlistEntry cl = true ∨ env.chartlistEntryFallback cl = true) →
        (navigate_via_chartlist_dropdown env
            (navigate_via_chartlist_dropdown env s cl c1).1 cl c2).2.1.count
          Event.chartlistDropdownClick = 0) ∧
    (∀ (env : Env) (s : NavState),
        env.chartlistButton = true →
        env.chartlistEntry "A" = true → env.chartlistEntry "B" = true →
        env.chartButton = true →
        env.chartEntry "X" = true → env.chartEntry "Y" = true →
        env.chartEntry "Z" = true →
        env.newTabOk 2 = true → env.newTabOk 3 = true →
        (open_charts_from_excel env s batchRowsAXYBZ).events.count
          Event.chartlistDropdownClick = 2) := by
  constructor
  · intro env s cl c1 c2 hbtn hfind
    apply navigate_via_cache_hit_no_dropdown
    exact navigate_via_cc_of_found env s cl c1 hbtn hfind
  · intro env s hbtn hA hB hcb hX hY hZ hnt2 hnt3
    have hload : load_chart_configs batchRowsAXYBZ = .ok batchConfigsAXYBZ := by
      decide
    have hAA : (("A" : String) == "A") = true := by decide
    have hAB : (("A" : String) == "B") = false := by decide
    simp [open_charts_from_excel, hload, batchConfigsAXYBZ, processBatch,
      processRequest, navigate_via_chartlist_dropdown, chartSelectStep,
      beq_none_some, beq_some_some, hbtn, hA, hB, hcb, hX, hY, hZ, hnt2, hnt3,
      hAA, hAB, List.count_cons, List.count_append]

/-- Witness for C2: both parts applied to the all-cooperative page with
concrete names. -/
theorem chartlist_selection_idempotent_witness :
    (navigate_via_chartlist_dropdown allOkEnv
        (navigate_via_chartlist_dropdown allOkEnv ⟨true, none, none⟩
          "Lists" "C1").1 "Lists" "C2").2.1.count
      Event.chartlistDropdownClick = 0 ∧
    (open_charts_from_excel allOkEnv ⟨true, none, none⟩ batchRowsAXYBZ).events.count
      Event.chartlistDropdownClick = 2 :=
  ⟨chartlist_selection_idempotent.1 allOkEnv ⟨true, none, none⟩ "Lists" "C1" "C2"
      rfl (Or.inl rfl),
   chartlist_selection_idempotent.2 allOkEnv ⟨true, none, none⟩
      rfl rfl rfl rfl rfl rfl rfl rfl rfl⟩

end TradingCharts
